import Mathlib

/-!
Shallow embedding of the M2Y messaging backend (Express + Prisma/MongoDB)
for checking its natural-language specification.

Sources embedded here:
- prisma/schema.prisma                  (data model: User, OtpData, Message,
                                         Reaction, Group, GroupInvite, MemberNickname)
- src/controllers/message.controller.js (sendMessage, getMessagesByUser,
                                         getGroupMessages, markMessageRead)
- src/controllers/media.controller.js   (getMedia)
- src/utils/otp.util.js                 (verifyOTP)
- src/utils/encryption.util.js          (encryptMessage, decryptMessage)

Conventions of the embedding:
- Mongo ObjectId strings are Lean String values; timestamps are Nat values
  (milliseconds since the epoch); a request-time call of the JavaScript
  Date constructor is an explicit parameter named now.
- A nullable column is an Option; a JavaScript falsy-or-absent request field
  is modelled as none / false.
- The Express (req, res) pair is modelled as explicit arguments and an
  ApiResult return value carrying the HTTP status; the Prisma client is
  modelled as an explicit DB record threaded through each handler.
- Relation includes that no claim mentions (the reactions include of the
  two fetch handlers) are omitted from the returned projections.
-/

namespace M2Y

/-- Row of the User model of prisma/schema.prisma (the columns the embedded
handlers read: id, username, phoneNumber, profilePic). -/
structure User where
  id : String
  username : Option String := none
  phoneNumber : String
  profilePic : Option String := none
deriving DecidableEq

/-- Row of the OtpData model of prisma/schema.prisma: a stored one-time code
with its recorded expiry deadline. -/
structure OtpData where
  userId : String
  otp : String
  expiresAt : Nat
deriving DecidableEq

/-- Row of the Message model of prisma/schema.prisma. Field defaults mirror
the schema defaults (isRead, isDelivered, isAnonymous, deleted all false;
nullable columns none). -/
structure Message where
  id : String
  senderId : String
  receiverId : Option String := none
  groupId : Option String := none
  content : String := ""
  encryptedKey : String := ""
  mediaUrl : Option String := none
  mediaType : Option String := none
  isRead : Bool := false
  isDelivered : Bool := false
  isAnonymous : Bool := false
  expiresAt : Option Nat := none
  deleted : Bool := false
  createdAt : Nat := 0
deriving DecidableEq

/-- Row of the Group model of prisma/schema.prisma (columns the embedded
handlers read). messageExpiry is the group default expiry in seconds,
none for no expiry. -/
structure Group where
  id : String
  name : String := ""
  adminId : String
  memberIds : List String
  messageExpiry : Option Nat := none
  allowAnonymous : Bool := false
deriving DecidableEq

/-- Row of the MemberNickname model of prisma/schema.prisma. -/
structure MemberNickname where
  userId : String
  groupId : String
  nickname : String
  isVisible : Bool := true
deriving DecidableEq

/-- The persistence collaborator: the Mongo collections the embedded
handlers touch, as lists of rows in insertion order. -/
structure DB where
  users : List User := []
  messages : List Message := []
  groups : List Group := []
  nicknames : List MemberNickname := []
  otps : List OtpData := []
deriving DecidableEq

/-- Result of an Express handler: ok payload (2xx) or error with the HTTP
status code and the response message string. -/
inductive ApiResult (α : Type) where
  | ok : α → ApiResult α
  | error : Nat → String → ApiResult α
deriving DecidableEq

/-- prisma.user.findUnique on id. -/
def findUser (db : DB) (userId : String) : Option User :=
  db.users.find? (fun u => u.id == userId)

/-- prisma.group.findUnique on id. -/
def findGroup (db : DB) (groupId : String) : Option M2Y.Group :=
  db.groups.find? (fun g => g.id == groupId)

/-- prisma.message.findUnique on id. -/
def findMessage (db : DB) (messageId : String) : Option Message :=
  db.messages.find? (fun m => m.id == messageId)

/-- Insert a message into a list sorted by ascending createdAt (helper of
sortByCreatedAt). -/
def insertByCreatedAt (m : Message) : List Message → List Message
  | [] => [m]
  | x :: xs =>
    if m.createdAt ≤ x.createdAt then m :: x :: xs else x :: insertByCreatedAt m xs

/-- The orderBy createdAt asc clause of the two fetch handlers, as an
insertion sort. -/
def sortByCreatedAt : List Message → List Message
  | [] => []
  | x :: xs => insertByCreatedAt x (sortByCreatedAt xs)

/-- The expiry disjunction that both fetch handlers put in their where
objects: OR of (expiresAt null) and (expiresAt gt now). -/
def notExpiredAt (now : Nat) (m : Message) : Bool :=
  match m.expiresAt with
  | none => true
  | some t => decide (now < t)

/-- The where object of getMessagesByUser (message.controller.js lines
109-127) as JavaScript evaluates it. The object literal writes the key OR
twice: first the sender/receiver participant disjunction, then the expiry
disjunction. A JavaScript object literal keeps only the LAST binding of a
duplicated key, so the participant disjunction is discarded and the
effective filter is only (deleted false AND not expired): the query is not
restricted to the two conversation partners at all. -/
def dmWhere (now : Nat) (m : Message) : Bool :=
  !m.deleted && notExpiredAt now m

/-- The where object of the updateMany of getMessagesByUser (lines 137-146):
senderId is the other user, receiverId the current user, isDelivered false. -/
def deliverCond (currentUserId otherUserId : String) (m : Message) : Bool :=
  m.senderId == otherUserId && m.receiverId == some currentUserId && !m.isDelivered

/-- getMessagesByUser of message.controller.js: fetches the direct
conversation (with the where object dmWhere, see its doc comment for the
duplicated OR key), then marks the matching received messages as delivered
(and only as delivered: the data object of the updateMany sets isDelivered
alone). Returns the fetched list and the updated store. -/
def getMessagesByUser (db : DB) (currentUserId otherUserId : String) (now : Nat) :
    List Message × DB :=
  let messages := sortByCreatedAt (db.messages.filter (dmWhere now))
  let db2 : DB :=
    { db with
      messages := db.messages.map (fun m =>
        if deliverCond currentUserId otherUserId m then { m with isDelivered := true } else m) }
  (messages, db2)

/-- The sender projection that getGroupMessages includes per message
(message.controller.js lines 210-218: id, username, phoneNumber,
profilePic), possibly rewritten by the anonymity or nickname mapping. A
field the JavaScript object does not carry (phoneNumber of the anonymous
replacement) is modelled as none; isNickname is absent-as-false and
isVisible absent-as-none. -/
structure SenderView where
  id : Option String
  username : Option String
  phoneNumber : Option String
  profilePic : Option String
  isNickname : Bool := false
  isVisible : Option Bool := none
deriving DecidableEq

/-- One element of the data array returned by getGroupMessages: the spread
of the message row (all scalar columns, senderId included) together with
the possibly rewritten sender projection. -/
structure GroupMessageView where
  message : Message
  sender : SenderView
deriving DecidableEq

/-- The include sender select of getGroupMessages: the sender projection
read from the user row. The schema makes the sender relation required, so
the fallback row for a missing user id cannot occur on real data. -/
def senderSelect (db : DB) (senderId : String) : SenderView :=
  match findUser db senderId with
  | some u =>
    { id := some u.id, username := u.username, phoneNumber := some u.phoneNumber,
      profilePic := u.profilePic }
  | none => { id := some senderId, username := none, phoneNumber := none, profilePic := none }

/-- The replacement sender object of message.controller.js lines 238-243:
id null, username the string Anonymous, profilePic null. -/
def anonymousSender : SenderView :=
  { id := none, username := some "Anonymous", phoneNumber := none, profilePic := none }

/-- The per-message mapping of getGroupMessages lines 233-264: an anonymous
message gets the replacement sender object (the spread keeps every scalar
column of the row, senderId included); otherwise the nickname of the
sender in this group, when present, overwrites username and adds
isNickname and isVisible, for every reader alike. -/
def groupMessageView (db : DB) (g : M2Y.Group) (m : Message) : GroupMessageView :=
  if m.isAnonymous then
    { message := m, sender := anonymousSender }
  else
    match (db.nicknames.filter (fun n => n.groupId == g.id)).find?
        (fun n => n.userId == m.senderId && n.groupId == g.id) with
    | some n =>
      let base := senderSelect db m.senderId
      { message := m,
        sender := { base with
                    username := some n.nickname,
                    isNickname := true,
                    isVisible := some n.isVisible } }
    | none => { message := m, sender := senderSelect db m.senderId }

/-- getGroupMessages of message.controller.js: 404 when the group is
missing, 403 when the caller is not in the member set, otherwise the
non-deleted non-expired messages of the group in createdAt order, mapped
through groupMessageView. -/
def getGroupMessages (db : DB) (currentUserId groupId : String) (now : Nat) :
    ApiResult (List GroupMessageView) :=
  match findGroup db groupId with
  | none => .error 404 "Group not found"
  | some g =>
    if !(g.memberIds.contains currentUserId) then
      .error 403 "You are not a member of this group"
    else
      let msgs := sortByCreatedAt (db.messages.filter
        (fun m => m.groupId == some groupId && !m.deleted && notExpiredAt now m))
      .ok (msgs.map (groupMessageView db g))

/-- The request body of sendMessage. A falsy field (absent, null, empty
string, numeric zero for isAnonymous) is modelled as none / false. -/
structure SendMessageRequest where
  receiverId : Option String := none
  groupId : Option String := none
  content : String := ""
  encryptedKey : String := ""
  mediaUrl : Option String := none
  mediaType : Option String := none
  isAnonymous : Bool := false
  expiresAt : Option Nat := none
deriving DecidableEq

/-- The data object of the prisma.message.create call of sendMessage
(message.controller.js lines 70-82). freshId stands for the generated
ObjectId and now for the createdAt default. -/
def mkMessage (senderId : String) (req : SendMessageRequest) (freshId : String) (now : Nat) :
    Message :=
  { id := freshId,
    senderId := senderId,
    receiverId := req.receiverId,
    groupId := req.groupId,
    content := req.content,
    encryptedKey := req.encryptedKey,
    mediaUrl := req.mediaUrl,
    mediaType := req.mediaType,
    isAnonymous := req.isAnonymous,
    expiresAt := req.expiresAt,
    createdAt := now }

/-- JavaScript truthiness of group.messageExpiry in sendMessage line 62:
null and 0 are falsy, every other number truthy. -/
def msgExpiryTruthy (g : M2Y.Group) : Bool :=
  match g.messageExpiry with
  | some e => !(e == 0)
  | none => false

/-- sendMessage of message.controller.js. The only target validation is the
neither-set check of lines 24-29 (both receiverId and groupId may be set
together). For a group target: 404 on a missing group, 403 on a
non-member sender, 403 on an anonymous message into a group that does not
allow it. When no expiresAt was supplied and the group carries a truthy
messageExpiry, line 65 assigns to the const destructured binding
expiresAt, which throws a TypeError that the catch block turns into a 500
response, so no message is created on that path. Otherwise the message is
created exactly from the request fields. -/
def sendMessage (db : DB) (senderId : String) (req : SendMessageRequest)
    (freshId : String) (now : Nat) : ApiResult Message × DB :=
  if req.receiverId.isNone && req.groupId.isNone then
    (.error 400 "Please provide either a receiver ID or group ID", db)
  else
    match req.groupId with
    | some gid =>
      match findGroup db gid with
      | none => (.error 404 "Group not found", db)
      | some g =>
        if !(g.memberIds.contains senderId) then
          (.error 403 "You are not a member of this group", db)
        else if req.isAnonymous && !g.allowAnonymous then
          (.error 403 "Anonymous messaging is not allowed in this group", db)
        else if req.expiresAt.isNone && msgExpiryTruthy g then
          (.error 500 "Assignment to constant variable.", db)
        else
          let m := mkMessage senderId req freshId now
          (.ok m, { db with messages := db.messages ++ [m] })
    | none =>
      let m := mkMessage senderId req freshId now
      (.ok m, { db with messages := db.messages ++ [m] })

/-- The authorization check of markMessageRead (message.controller.js lines
301-315): the direct receiver, or any member of the target group. -/
def canMarkAsRead (db : DB) (m : Message) (userId : String) : Bool :=
  m.receiverId == some userId ||
    (match m.groupId with
     | some gid =>
       (match findGroup db gid with
        | some g => g.memberIds.contains userId
        | none => false)
     | none => false)

/-- markMessageRead of message.controller.js: 404 when the message is
missing, 403 when the caller may not acknowledge it, otherwise the update
sets both isRead and isDelivered on the message row. -/
def markMessageRead (db : DB) (messageId userId : String) : ApiResult Unit × DB :=
  match findMessage db messageId with
  | none => (.error 404 "Message not found", db)
  | some m =>
    if !(canMarkAsRead db m userId) then
      (.error 403 "Not authorized to mark this message as read", db)
    else
      (.ok (),
        { db with
          messages := db.messages.map (fun x =>
            if x.id == messageId then { x with isRead := true, isDelivered := true } else x) })

/-- Helper of strContains: does the second list start the first one. -/
def strStartsWith : List Char → List Char → Bool
  | _, [] => true
  | [], _ :: _ => false
  | a :: as, b :: bs => a == b && strStartsWith as bs

/-- Helper of strContains: substring search over character lists. -/
def strContainsAux : List Char → List Char → Bool
  | [], needle => strStartsWith [] needle
  | h :: t, needle => strStartsWith (h :: t) needle || strContainsAux t needle

/-- The Prisma string filter contains of media.controller.js line 108:
substring containment. -/
def strContains (haystack needle : String) : Bool :=
  strContainsAux haystack.toList needle.toList

/-- Helper of basename: the characters after the last slash, cur holding
the characters seen since the last slash so far. -/
def basenameAux (cur : List Char) : List Char → List Char
  | [] => cur
  | c :: rest => if c == '/' then basenameAux [] rest else basenameAux (cur ++ [c]) rest

/-- path.basename of media.controller.js line 94: the part after the last
slash. -/
def basename (s : String) : String :=
  String.mk (basenameAux [] s.toList)

/-- Outcome of getMedia towards the client: 404 for a missing file, 403 for
a non-participant, 404 after the expiry check (the handler also unlinks
the file there), or the file being sent. -/
inductive MediaResult where
  | notFound
  | forbidden
  | expired
  | fileSent
deriving DecidableEq

/-- The prisma.message.findFirst of getMedia (media.controller.js lines
106-110): the first message whose mediaUrl contains the sanitized
filename. -/
def findMediaMessage (db : DB) (name : String) : Option Message :=
  db.messages.find? (fun m =>
    match m.mediaUrl with
    | some url => strContains url name
    | none => false)

/-- The access check of getMedia (media.controller.js lines 113-130):
sender, direct receiver, or member of the referenced group. -/
def mediaHasAccess (db : DB) (m : Message) (userId : String) : Bool :=
  (m.senderId == userId || m.receiverId == some userId) ||
    (match m.groupId with
     | some gid =>
       (match findGroup db gid with
        | some g => g.memberIds.contains userId
        | none => false)
     | none => false)

/-- The expiry test of getMedia (media.controller.js line 140): the
deadline, when present, lies strictly before now. -/
def mediaExpiredAt (now : Nat) (m : Message) : Bool :=
  match m.expiresAt with
  | some t => decide (t < now)
  | none => false

/-- The update of the view-once branch of getMedia (lines 153-159): set
isRead and isDelivered on the message row. -/
def markReadDelivered (db : DB) (messageId : String) : DB :=
  { db with
    messages := db.messages.map (fun m =>
      if m.id == messageId then { m with isRead := true, isDelivered := true } else m) }

/-- getMedia of media.controller.js, sequential (single-request) semantics.
files is the media store collaborator: the set of stored blob names. When
no message references the file it is sent with no participant check; when
the referencing message is expired (expiresAt strictly before now) the
file is unlinked and 404 returned; when the message carries an expiry and
is not yet read (the view-once test of line 151) the row is marked read
and delivered and the file is unlinked after sending. -/
def getMedia (db : DB) (files : List String) (filename userId : String) (now : Nat) :
    MediaResult × List String × DB :=
  let name := basename filename
  if !(files.contains name) then (.notFound, files, db)
  else
    match findMediaMessage db name with
    | none => (.fileSent, files, db)
    | some m =>
      if !(mediaHasAccess db m userId) then (.forbidden, files, db)
      else if mediaExpiredAt now m then
        (.expired, files.filter (fun f => !(f == name)), db)
      else if m.expiresAt.isSome && !m.isRead then
        (.fileSent, files.filter (fun f => !(f == name)), markReadDelivered db m.id)
      else (.fileSent, files, db)

/-- verifyOTP of otp.util.js: false when no OtpData row exists for the user
or the stored code differs from the provided one; otherwise the row is
deleted and true returned. The stored expiresAt deadline is never read:
the comparison guarded by the comment about expiry compares the code
itself. -/
def verifyOTP (db : DB) (userId providedOtp : String) : Bool × DB :=
  match db.otps.find? (fun o => o.userId == userId) with
  | none => (false, db)
  | some o =>
    if !(o.otp == providedOtp) then (false, db)
    else (true, { db with otps := db.otps.filter (fun x => !(x.userId == userId)) })

/-- The self-describing envelope of encryption.util.js lines 425-429: iv,
authTag and ciphertext bytes. The iv and tag are opaque byte blobs,
modelled as Nat values; the ciphertext is the byte list. -/
structure Envelope where
  iv : Nat
  authTag : Nat
  encryptedData : List Nat
deriving DecidableEq

/-- The JSON-plus-base64 wire encoding of the envelope (lines 425-431),
modelled as a self-describing byte sequence: the iv, the tag, then the
ciphertext. -/
def encodeEnvelope (e : Envelope) : List Nat :=
  e.iv :: e.authTag :: e.encryptedData

/-- The JSON.parse-plus-base64 decoding of decryptMessage (line 441):
recovers the three envelope components, failing on a malformed blob. -/
def decodeEnvelope (l : List Nat) : Option Envelope :=
  match l with
  | iv :: tag :: rest => some { iv := iv, authTag := tag, encryptedData := rest }
  | _ => none

/-- Byte-wise xor of a data stream against a keystream (the CTR layer of
aes-256-gcm: the library cipher xors the plaintext with the keystream the
block cipher derives from key and iv). -/
def zipXor (data keystream : List Nat) : List Nat :=
  List.zipWith Nat.xor data keystream

/-- The keystream the aes-256-gcm cipher of encryption.util.js derives from
the key and iv. The node crypto library is the external collaborator
here, so the block-cipher byte generator blockf is an explicit parameter;
GCM applies the same keystream in both directions. -/
def gcmKeystream (blockf : Nat → Nat → Nat → Nat) (aesKey iv n : Nat) : List Nat :=
  (List.range n).map (blockf aesKey iv)

/-- encryptMessage of encryption.util.js lines 415-432: encrypt the message
bytes under aes-256-gcm with the given key and the per-call random iv
(randomness is an explicit argument), take the authentication tag (tagf,
the GHASH of the library, computed over key, iv and ciphertext), and
serialize the self-describing envelope. -/
def encryptMessage (blockf : Nat → Nat → Nat → Nat) (tagf : Nat → Nat → List Nat → Nat)
    (message : List Nat) (aesKey iv : Nat) : List Nat :=
  let encrypted := zipXor message (gcmKeystream blockf aesKey iv message.length)
  encodeEnvelope { iv := iv, authTag := tagf aesKey iv encrypted, encryptedData := encrypted }

/-- decryptMessage of encryption.util.js lines 440-454: decode the
envelope, verify the authentication tag (decipher.final throws on a
mismatch, modelled as none), and undo the keystream xor. -/
def decryptMessage (blockf : Nat → Nat → Nat → Nat) (tagf : Nat → Nat → List Nat → Nat)
    (encryptedMessage : List Nat) (aesKey : Nat) : Option (List Nat) :=
  match decodeEnvelope encryptedMessage with
  | none => none
  | some e =>
    if tagf aesKey e.iv e.encryptedData == e.authTag then
      some (zipXor e.encryptedData (gcmKeystream blockf aesKey e.iv e.encryptedData.length))
    else none

/-- Shared and per-reader state of two concurrent getMedia requests racing
on the same view-once message by the same receiver. isReadFlag is the
stored isRead column, fileExists the presence of the backing blob,
deletions the number of unlink calls that succeeded. Each reader holds a
program counter, the isRead snapshot its findFirst loaded, and whether it
entered the view-once consume branch. -/
structure RaceState where
  isReadFlag : Bool
  fileExists : Bool
  deletions : Nat
  pc1 : Nat := 0
  snap1 : Bool := false
  entered1 : Bool := false
  pc2 : Nat := 0
  snap2 : Bool := false
  entered2 : Bool := false
deriving DecidableEq

/-- One atomic action of reader 1, following the view-once path of getMedia
(media.controller.js lines 150-174). pc 0: the findFirst loads a snapshot
of the row. pc 1: the branch test reads only that snapshot, and on
! isRead the prisma update writes isRead unconditionally (a plain
read-then-write, the update is keyed on the id alone with no condition on
the flag). pc 2: the unlink on response finish removes the file when it
still exists; a second unlink throws ENOENT, which the handler catches
and logs, so it performs no deletion. -/
def step1 (s : RaceState) : RaceState :=
  if s.pc1 == 0 then { s with snap1 := s.isReadFlag, pc1 := 1 }
  else if s.pc1 == 1 then
    if !s.snap1 then { s with entered1 := true, isReadFlag := true, pc1 := 2 }
    else { s with pc1 := 3 }
  else if s.pc1 == 2 then
    if s.fileExists then { s with fileExists := false, deletions := s.deletions + 1, pc1 := 3 }
    else { s with pc1 := 3 }
  else s

/-- One atomic action of reader 2; same program as step1 on the second
program counter. -/
def step2 (s : RaceState) : RaceState :=
  if s.pc2 == 0 then { s with snap2 := s.isReadFlag, pc2 := 1 }
  else if s.pc2 == 1 then
    if !s.snap2 then { s with entered2 := true, isReadFlag := true, pc2 := 2 }
    else { s with pc2 := 3 }
  else if s.pc2 == 2 then
    if s.fileExists then { s with fileExists := false, deletions := s.deletions + 1, pc2 := 3 }
    else { s with pc2 := 3 }
  else s

/-- Run an interleaving of the two readers: true schedules reader 1, false
reader 2. -/
def runRace : List Bool → RaceState → RaceState
  | [], s => s
  | b :: rest, s => runRace rest (if b then step1 s else step2 s)

/-- Initial state of the race: an unread view-once message whose backing
file exists, both readers before their findFirst. -/
def raceInit : RaceState :=
  { isReadFlag := false, fileExists := true, deletions := 0 }

/-- The schedule in which both readers load the row before either writes:
both findFirst calls, then both branch tests with updates, then both
unlink attempts. -/
def raceBothLoadFirst : List Bool :=
  [true, false, true, false, true, false]

/-! Helper lemmas shared by the claim theorems. -/

theorem mem_insertByCreatedAt {a m : Message} {l : List Message} :
    a ∈ insertByCreatedAt m l ↔ a = m ∨ a ∈ l := by
  induction l with
  | nil => simp [insertByCreatedAt]
  | cons x xs ih =>
    simp only [insertByCreatedAt]
    split
    · simp
    · simp only [List.mem_cons, ih]
      tauto

theorem mem_sortByCreatedAt {a : Message} {l : List Message} :
    a ∈ sortByCreatedAt l ↔ a ∈ l := by
  induction l with
  | nil => simp [sortByCreatedAt]
  | cons x xs ih => simp [sortByCreatedAt, mem_insertByCreatedAt, ih]

theorem groupMessageView_message (db : DB) (g : M2Y.Group) (m : Message) :
    (groupMessageView db g m).message = m := by
  unfold groupMessageView
  split
  · rfl
  · split <;> rfl

/-- Store of the failing input of claim C1: a single direct message from
user w to user x. The querying user u and the conversation partner v
appear nowhere in it. -/
def c1db : DB :=
  { messages := [{ id := "m1", senderId := "w", receiverId := some "x" }] }

/-- Claim C1 (code bug): fetching the direct conversation of u with v is
claimed to return only messages with u as sender or direct receiver, but
the duplicated OR key of the where object drops the participant filter,
so the query returns a direct message between w and x in which u plays no
role at all (u is neither sender nor direct receiver, and the message has
no group). -/
theorem getMessagesByUser_returns_foreign_message :
    (getMessagesByUser c1db "u" "v" 0).1.any
      (fun m => !(m.senderId == "u") && !(m.receiverId == some "u") && m.groupId == none)
      = true := by
  decide

/-- Claim C4 (confirmed): every read path re-checks the expiry deadline at
query time, independently of the background sweep (which does not appear
in any read path). Direct-conversation fetch and group fetch only return
messages whose deadline is still in the future; the media fetch never
sends the file when the referencing message its lookup found has a
deadline strictly before now (it answers 404 expired, or 403 before
that). -/
theorem read_paths_enforce_expiry :
    (∀ db u v now m t, m ∈ (getMessagesByUser db u v now).1 →
       m.expiresAt = some t → now < t) ∧
    (∀ db u gid now views view t, getGroupMessages db u gid now = .ok views →
       view ∈ views → view.message.expiresAt = some t → now < t) ∧
    (∀ db files fn uid now m t, findMediaMessage db (basename fn) = some m →
       m.expiresAt = some t → t < now →
       (getMedia db files fn uid now).1 ≠ .fileSent) := by
  refine ⟨?_, ?_, ?_⟩
  · intro db u v now m t hm he
    have hm2 := mem_sortByCreatedAt.mp hm
    have hf := (List.mem_filter.mp hm2).2
    simp only [dmWhere, notExpiredAt, he, Bool.and_eq_true, decide_eq_true_eq] at hf
    exact hf.2
  · intro db u gid now views view t hok hv he
    unfold getGroupMessages at hok
    cases hg : findGroup db gid with
    | none => rw [hg] at hok; cases hok
    | some g =>
      rw [hg] at hok
      by_cases hmem : g.memberIds.contains u = true
      · simp only [hmem, Bool.not_true, Bool.false_eq_true, if_false] at hok
        cases hok
        obtain ⟨m, hm, hvm⟩ := List.mem_map.mp hv
        have hf := (List.mem_filter.mp (mem_sortByCreatedAt.mp hm)).2
        rw [← hvm, groupMessageView_message] at he
        simp only [notExpiredAt, he, Bool.and_eq_true, decide_eq_true_eq] at hf
        exact hf.2
      · simp only [Bool.not_eq_true] at hmem
        simp only [hmem, Bool.not_false, if_true] at hok
        cases hok
  · intro db files fn uid now m t hfind he hlt hsent
    simp only [getMedia] at hsent
    split at hsent
    · cases hsent
    · split at hsent
      · rename_i hnone
        rw [hfind] at hnone
        cases hnone
      · rename_i m' hsome
        rw [hfind] at hsome
        cases hsome
        split at hsent
        · cases hsent
        · split at hsent
          · cases hsent
          · rename_i hexp
            exact hexp (by simp [mediaExpiredAt, he, hlt])

/-- Store of the witness of claim C4: a direct message and a group message
both expiring at time 5, readable at time 3, and an expired media message
(deadline 1) fetched at time 9. -/
def c4dbDirect : DB :=
  { messages := [{ id := "m1", senderId := "v", receiverId := some "u",
                   expiresAt := some 5 }] }

def c4msgDirect : Message :=
  { id := "m1", senderId := "v", receiverId := some "u", expiresAt := some 5 }

def c4dbGroup : DB :=
  { users := [{ id := "a", phoneNumber := "1" }],
    messages := [{ id := "m2", senderId := "a", groupId := some "g",
                   expiresAt := some 5 }],
    groups := [{ id := "g", adminId := "a", memberIds := ["a", "b"] }] }

def c4viewGroup : GroupMessageView :=
  { message := { id := "m2", senderId := "a", groupId := some "g", expiresAt := some 5 },
    sender := { id := some "a", username := none, phoneNumber := some "1",
                profilePic := none } }

def c4dbMedia : DB :=
  { messages := [{ id := "m3", senderId := "s", receiverId := some "r",
                   mediaUrl := some "/api/media/f.png", expiresAt := some 1 }] }

def c4msgMedia : Message :=
  { id := "m3", senderId := "s", receiverId := some "r",
    mediaUrl := some "/api/media/f.png", expiresAt := some 1 }

/-- Witness of claim C4: the three parts applied at the concrete stores
above, with every hypothesis discharged by evaluation. -/
theorem read_paths_enforce_expiry_witness :
    ((3 : Nat) < 5) ∧ ((3 : Nat) < 5) ∧
      (getMedia c4dbMedia ["f.png"] "f.png" "r" 9).1 ≠ .fileSent := by
  refine ⟨?_, ?_, ?_⟩
  · exact read_paths_enforce_expiry.1 c4dbDirect "u" "v" 3 c4msgDirect 5 (by decide) rfl
  · exact read_paths_enforce_expiry.2.1 c4dbGroup "b" "g" 3 [c4viewGroup] c4viewGroup 5
      (by decide) (by decide) rfl
  · exact read_paths_enforce_expiry.2.2 c4dbMedia ["f.png"] "f.png" "r" 9 c4msgMedia 1
      (by decide) rfl (by decide)

/-- Claim C5 (confirmed): whenever the media fetch finds a message
referencing the requested file, the file is sent only when the caller
passes the participant check of getMedia (sender, direct receiver, or
member of the referencing group) and the message is not expired at query
time; otherwise the caller gets 403 or 404. -/
theorem getMedia_participant_rule (db : DB) (files : List String) (fn uid : String)
    (now : Nat) (m : Message)
    (hfind : findMediaMessage db (basename fn) = some m)
    (hsent : (getMedia db files fn uid now).1 = .fileSent) :
    mediaHasAccess db m uid = true ∧ mediaExpiredAt now m = false := by
  simp only [getMedia] at hsent
  split at hsent
  · cases hsent
  · split at hsent
    · rename_i hnone
      rw [hfind] at hnone
      cases hnone
    · rename_i m' hsome
      rw [hfind] at hsome
      cases hsome
      split at hsent
      · cases hsent
      · rename_i hacc
        split at hsent
        · cases hsent
        · rename_i hexp
          refine ⟨by simpa using hacc, by simpa using hexp⟩

/-- Store of the witness of claim C5: one message from s to r referencing
the stored file f.png, with no expiry. -/
def c5db : DB :=
  { messages := [{ id := "m1", senderId := "s", receiverId := some "r",
                   mediaUrl := some "/api/media/f.png" }] }

/-- The message row of the C5 witness store. -/
def c5msg : Message :=
  { id := "m1", senderId := "s", receiverId := some "r",
    mediaUrl := some "/api/media/f.png" }

/-- Witness of claim C5: the receiver r fetches f.png at time 0, the file
is sent, and the theorem yields the participant check and the
non-expiry. -/
theorem getMedia_participant_rule_witness :
    mediaHasAccess c5db c5msg "r" = true ∧ mediaExpiredAt 0 c5msg = false :=
  getMedia_participant_rule c5db ["f.png"] "f.png" "r" 0 c5msg (by decide) (by decide)

/-- Store of the C2 counterexample and witness: one group g1 whose admin a
is its only member, with no default message expiry. -/
def c2db : DB :=
  { groups := [{ id := "g1", adminId := "a", memberIds := ["a"] }] }

/-- Request whose body carries neither a receiver nor a group. -/
def c2reqNeither : SendMessageRequest := {}

/-- Request whose body carries both a receiver and a group. -/
def c2reqBoth : SendMessageRequest :=
  { receiverId := some "b", groupId := some "g1" }

/-- Counterexample of claim C2: a creation request with both receiver id
and group id set is claimed to be rejected, but sendMessage accepts it:
after the call the store holds a message whose receiverId and groupId are
both set, violating the claimed exactly-one invariant. -/
theorem sendMessage_accepts_both_targets :
    ((sendMessage c2db "a" c2reqBoth "m9" 0).2.messages.any
      (fun m => m.receiverId == some "b" && m.groupId == some "g1")) = true := by
  decide

/-- Claim C2 as amended (corrected): only the neither-set case is rejected
at creation (status 400). A request with both receiver and group set is
not rejected: whenever the group lookup, the membership check, the
anonymity check and the const-reassignment pitfall do not interfere, the
message is created and stored with BOTH its receiver id and its group id
set. -/
theorem sendMessage_target_validation :
    (∀ db sid req fid now, req.receiverId = none → req.groupId = none →
       (sendMessage db sid req fid now).1
         = .error 400 "Please provide either a receiver ID or group ID") ∧
    (∀ db sid req fid now r gid g, req.receiverId = some r → req.groupId = some gid →
       findGroup db gid = some g → g.memberIds.contains sid = true →
       (req.isAnonymous && !g.allowAnonymous) = false →
       (req.expiresAt.isNone && msgExpiryTruthy g) = false →
       (sendMessage db sid req fid now).1 = .ok (mkMessage sid req fid now) ∧
         (mkMessage sid req fid now).receiverId = some r ∧
         (mkMessage sid req fid now).groupId = some gid ∧
         mkMessage sid req fid now ∈ (sendMessage db sid req fid now).2.messages) := by
  constructor
  · intro db sid req fid now h1 h2
    simp [sendMessage, h1, h2]
  · intro db sid req fid now r gid g hr hg hfind hmem hanon hexp
    have hmem2 : sid ∈ g.memberIds := by simpa using hmem
    have hsend : sendMessage db sid req fid now
        = (.ok (mkMessage sid req fid now),
           { db with messages := db.messages ++ [mkMessage sid req fid now] }) := by
      simp [sendMessage, hr, hg, hfind, hmem2, hanon, hexp]
    refine ⟨by rw [hsend], by simp [mkMessage, hr], by simp [mkMessage, hg], ?_⟩
    rw [hsend]
    simp

/-- Witness of claim C2 as amended: the neither-set request is rejected
with 400, and the both-set request into group g1 by its admin is accepted
and stored with both targets. -/
theorem sendMessage_target_validation_witness :
    ((sendMessage c2db "a" c2reqNeither "m8" 0).1
       = .error 400 "Please provide either a receiver ID or group ID") ∧
    ((sendMessage c2db "a" c2reqBoth "m9" 0).1 = .ok (mkMessage "a" c2reqBoth "m9" 0) ∧
      (mkMessage "a" c2reqBoth "m9" 0).receiverId = some "b" ∧
      (mkMessage "a" c2reqBoth "m9" 0).groupId = some "g1" ∧
      mkMessage "a" c2reqBoth "m9" 0 ∈ (sendMessage c2db "a" c2reqBoth "m9" 0).2.messages) :=
  ⟨sendMessage_target_validation.1 c2db "a" c2reqNeither "m8" 0 rfl rfl,
   sendMessage_target_validation.2 c2db "a" c2reqBoth "m9" 0 "b" "g1"
     { id := "g1", adminId := "a", memberIds := ["a"] }
     rfl rfl (by decide) (by decide) (by decide) (by decide)⟩

/-- Store of the failing input of claim C3: group g2 allows anonymous
messages, its members are alice and its admin bob; alice has sent one
anonymous message. -/
def c3db : DB :=
  { users := [{ id := "alice", username := some "Alice", phoneNumber := "111" },
              { id := "bob", username := some "Bob", phoneNumber := "222" }],
    messages := [{ id := "m1", senderId := "alice", groupId := some "g2",
                   isAnonymous := true }],
    groups := [{ id := "g2", adminId := "bob", memberIds := ["bob", "alice"],
                 allowAnonymous := true }] }

/-- Claim C3 (code bug): reading the group conversation is claimed to
substitute a non-identifying sentinel for the sender identity in the
ENTIRE returned message object of an anonymous message. The handler does
replace the nested sender projection by the Anonymous sentinel, but the
spread of the message row keeps the scalar senderId column, so the
returned object still carries the true sender id alice: any group member
(bob here, the admin) reads it. -/
theorem getGroupMessages_leaks_anonymous_sender_id :
    (match getGroupMessages c3db "bob" "g2" 0 with
     | .ok views => views.any (fun v =>
         v.message.isAnonymous && v.message.senderId == "alice" &&
           v.sender.id == none && v.sender.username == some "Anonymous")
     | .error _ _ => false) = true := by
  decide

/-- Store of the failing input of claim C7: group g1 with admin bob and
members alice and carol; alice carries the hidden nickname SecretAlias
(isVisible false) and has sent one ordinary (non-anonymous) message. -/
def c7db : DB :=
  { users := [{ id := "alice", username := some "Alice", phoneNumber := "111" },
              { id := "bob", username := some "Bob", phoneNumber := "222" },
              { id := "carol", username := some "Carol", phoneNumber := "333" }],
    messages := [{ id := "m1", senderId := "alice", groupId := some "g1" }],
    groups := [{ id := "g1", adminId := "bob", memberIds := ["bob", "alice", "carol"] }],
    nicknames := [{ userId := "alice", groupId := "g1", nickname := "SecretAlias",
                    isVisible := false }] }

/-- Claim C7 (code bug): a hidden alias is claimed to be visible only to
the admin and to the aliased user, with every other member receiving a
projection holding neither the real identity nor the alias. But
getGroupMessages substitutes the nickname into the sender projection for
EVERY member: carol, who is neither the admin nor alice, receives the
hidden alias SecretAlias (merely tagged isVisible false) together with
the real identity (sender id alice and alice's phone number). -/
theorem getGroupMessages_reveals_hidden_alias :
    (match getGroupMessages c7db "carol" "g1" 0 with
     | .ok views => views.any (fun v =>
         !v.message.isAnonymous && v.sender.username == some "SecretAlias" &&
           v.sender.isVisible == some false && v.sender.id == some "alice" &&
           v.sender.phoneNumber == some "111")
     | .error _ _ => false) = true := by
  decide

/-- Pointwise effect of the updateMany of getMessagesByUser on the
isDelivered column. -/
theorem isDelivered_after_fetch (u v : String) (m : Message) :
    (if deliverCond u v m then { m with isDelivered := true } else m).isDelivered
      = (m.isDelivered || (m.senderId == v && m.receiverId == some u)) := by
  cases ha : (m.senderId == v) <;> cases hb : (m.receiverId == some u) <;>
    cases hd : m.isDelivered <;> simp [deliverCond, ha, hb, hd]

/-- Store of the C6 counterexample and witness: one undelivered unread
message from v to u. -/
def c6db : DB :=
  { messages := [{ id := "m1", senderId := "v", receiverId := some "u" }] }

/-- The row of c6db after markMessageRead acknowledged it. -/
def c6updMsg : Message :=
  { id := "m1", senderId := "v", receiverId := some "u", isRead := true, isDelivered := true }

/-- Counterexample of claim C6: the receiver u fetches the conversation
with v; the unread undelivered message m1 is fetched (first conjunct),
yet after the fetch the stored row is delivered but still NOT read
(second conjunct) — the fetch does not apply Delivered and Read together
as claimed, it sets isDelivered alone. -/
theorem fetch_does_not_mark_read_counterexample :
    ((getMessagesByUser c6db "u" "v" 0).1.any
       (fun m => m.id == "m1" && !m.isRead && !m.isDelivered)) = true ∧
    ((getMessagesByUser c6db "u" "v" 0).2.messages.any
       (fun m => m.id == "m1" && m.isDelivered && !m.isRead)) = true := by
  exact ⟨by decide, by decide⟩

/-- Claim C6 as amended (corrected): fetching a direct conversation leaves
every isRead flag unchanged and sets isDelivered exactly on the messages
from the other user to the caller (idempotently); the explicit
acknowledgment markMessageRead, when it succeeds, sets both isRead and
isDelivered on the target row. -/
theorem fetch_and_ack_flag_updates :
    (∀ db u v now,
       ((getMessagesByUser db u v now).2.messages.map Message.isRead
          = db.messages.map Message.isRead) ∧
       ((getMessagesByUser db u v now).2.messages.map Message.isDelivered
          = db.messages.map (fun m =>
              m.isDelivered || (m.senderId == v && m.receiverId == some u)))) ∧
    (∀ db mid uid, (markMessageRead db mid uid).1 = .ok () →
       ∀ m, m ∈ (markMessageRead db mid uid).2.messages → m.id = mid →
         m.isRead = true ∧ m.isDelivered = true) := by
  constructor
  · intro db u v now
    constructor
    · simp only [getMessagesByUser, List.map_map]
      refine List.map_congr_left ?_
      intro m _
      simp only [Function.comp_apply]
      split <;> rfl
    · simp only [getMessagesByUser, List.map_map]
      refine List.map_congr_left ?_
      intro m _
      simp only [Function.comp_apply]
      exact isDelivered_after_fetch u v m
  · intro db mid uid hok m hm hid
    unfold markMessageRead at hok hm
    cases hf : findMessage db mid with
    | none =>
      rw [hf] at hok
      cases hok
    | some m0 =>
      rw [hf] at hok hm
      by_cases hc : canMarkAsRead db m0 uid = true
      · simp only [hc, Bool.not_true, Bool.false_eq_true, if_false] at hm
        obtain ⟨x, hx, hfx⟩ := List.mem_map.mp hm
        by_cases hxid : (x.id == mid) = true
        · rw [if_pos hxid] at hfx
          rw [← hfx]
          exact ⟨rfl, rfl⟩
        · rw [if_neg (by simp [hxid])] at hfx
          rw [← hfx] at hid
          simp [hid] at hxid
      · simp only [Bool.not_eq_true] at hc
        simp only [hc, Bool.not_false, if_true] at hok
        cases hok

/-- Witness of claim C6 as amended: the fetch of c6db by u keeps every
isRead flag and sets isDelivered per the sender/receiver condition, and
the acknowledged row carries both flags. -/
theorem fetch_and_ack_flag_updates_witness :
    (((getMessagesByUser c6db "u" "v" 0).2.messages.map Message.isRead
        = c6db.messages.map Message.isRead) ∧
     ((getMessagesByUser c6db "u" "v" 0).2.messages.map Message.isDelivered
        = c6db.messages.map (fun m =>
            m.isDelivered || (m.senderId == "v" && m.receiverId == some "u")))) ∧
    (c6updMsg.isRead = true ∧ c6updMsg.isDelivered = true) :=
  ⟨fetch_and_ack_flag_updates.1 c6db "u" "v" 0,
   fetch_and_ack_flag_updates.2 c6db "m1" "u" (by decide) c6updMsg (by decide) rfl⟩

/-- Xoring the same keystream twice returns the original bytes (the CTR
symmetry that makes GCM decryption invert encryption). -/
theorem zipXor_cancel : ∀ (l s : List Nat), s.length = l.length →
    zipXor (zipXor l s) s = l
  | [], _, _ => rfl
  | _ :: _, [], h => by simp at h
  | a :: as, b :: bs, h => by
    have h2 : bs.length = as.length := by simpa using h
    have ih := zipXor_cancel as bs h2
    simp only [zipXor, List.zipWith] at ih ⊢
    rw [ih]
    have hx : Nat.xor (Nat.xor a b) b = a := by
      show (a ^^^ b) ^^^ b = a
      simp [Nat.xor_assoc]
    rw [hx]

/-- Claim C8 (confirmed): for every plaintext byte sequence p, every key
and every per-call iv, opening the sealed envelope with the same key
returns p. The theorem quantifies over the keystream generator and tag
function of the external aes-256-gcm library primitive, so it holds in
particular for the actual cipher. -/
theorem decryptMessage_encryptMessage (blockf : Nat → Nat → Nat → Nat)
    (tagf : Nat → Nat → List Nat → Nat) (p : List Nat) (aesKey iv : Nat) :
    decryptMessage blockf tagf (encryptMessage blockf tagf p aesKey iv) aesKey = some p := by
  simp only [encryptMessage, decryptMessage, encodeEnvelope, decodeEnvelope]
  rw [if_pos (by simp)]
  rw [show (zipXor p (gcmKeystream blockf aesKey iv p.length)).length = p.length from by
    simp [zipXor, gcmKeystream]]
  exact congrArg some (zipXor_cancel p _ (by simp [gcmKeystream]))

/-- Deletion budget of the race: successful unlink count plus the file
still being present. Every step preserves it, so it bounds deletions. -/
def delBudget (s : RaceState) : Nat :=
  s.deletions + (if s.fileExists then 1 else 0)

theorem delBudget_step1 (s : RaceState) : delBudget (step1 s) = delBudget s := by
  unfold step1
  split
  · rfl
  · split
    · split <;> rfl
    · split
      · split <;> simp [delBudget, *]
      · rfl

theorem delBudget_step2 (s : RaceState) : delBudget (step2 s) = delBudget s := by
  unfold step2
  split
  · rfl
  · split
    · split <;> rfl
    · split
      · split <;> simp [delBudget, *]
      · rfl

theorem delBudget_runRace : ∀ (sched : List Bool) (s : RaceState),
    delBudget (runRace sched s) = delBudget s
  | [], _ => rfl
  | b :: rest, s => by
    unfold runRace
    rw [delBudget_runRace rest]
    cases b
    · exact delBudget_step2 s
    · exact delBudget_step1 s

/-- Counterexample of claim C9: the claim asserts compare-and-clear
semantics on the already-consumed flag, under which at most one of two
racing readers can win the flag and enter the consume branch. In the
schedule where both readers load the row before either writes, BOTH
enter the consume branch — the update of getMedia writes isRead keyed on
the id alone, a plain read-then-write, and both readers also send the
file. -/
theorem viewOnce_race_both_readers_consume :
    (runRace raceBothLoadFirst raceInit).entered1 = true ∧
    (runRace raceBothLoadFirst raceInit).entered2 = true := by
  exact ⟨by decide, by decide⟩

/-- Claim C9 as amended (corrected): two concurrent reads of the same
view-once message by the same receiver cause at most one successful
deletion of the backing media under EVERY interleaving — but this is
enforced by the second unlink failing on the already-removed file (the
handler catches and logs the error), not by compare-and-clear on the
consumed flag: in the both-load-first schedule both readers pass the
flag test, both enter the consume branch, and exactly one deletion
happens. -/
theorem viewOnce_race_single_deletion :
    (∀ sched : List Bool, (runRace sched raceInit).deletions ≤ 1) ∧
    ((runRace raceBothLoadFirst raceInit).entered1 = true ∧
     (runRace raceBothLoadFirst raceInit).entered2 = true ∧
     (runRace raceBothLoadFirst raceInit).deletions = 1) := by
  refine ⟨?_, by decide, by decide, by decide⟩
  intro sched
  have h := delBudget_runRace sched raceInit
  have h0 : delBudget raceInit = 1 := rfl
  rw [h0] at h
  unfold delBudget at h
  cases hf : (runRace sched raceInit).fileExists <;> rw [hf] at h <;> simp at h <;> omega

/-- Claim C10 (confirmed, implicit in the code): verifyOTP accepts a
provided code whenever a stored row exists and its code matches, even
when the stored expiresAt deadline already lies in the past at
verification time: the deadline is written by saveOTP but never read by
verifyOTP (the comparison under the expiry comment checks the code, not
the clock). -/
theorem verifyOTP_ignores_expiry (db : DB) (uid otp : String) (d : OtpData) (now : Nat)
    (hfind : db.otps.find? (fun o => o.userId == uid) = some d)
    (hotp : d.otp = otp) (_hexp : d.expiresAt < now) :
    (verifyOTP db uid otp).1 = true := by
  unfold verifyOTP
  rw [hfind]
  simp [hotp]

/-- Store of the C10 witness: one OTP row that expired at time 1. -/
def c10db : DB :=
  { otps := [{ userId := "u1", otp := "123456", expiresAt := 1 }] }

/-- The stored OTP row of the C10 witness. -/
def c10otp : OtpData :=
  { userId := "u1", otp := "123456", expiresAt := 1 }

/-- Witness of claim C10: at time 5, long past the recorded deadline 1,
the matching code is still accepted. -/
theorem verifyOTP_ignores_expiry_witness :
    (verifyOTP c10db "u1" "123456").1 = true :=
  verifyOTP_ignores_expiry c10db "u1" "123456" c10otp 5 (by decide) rfl (by decide)

end M2Y
